import Mathlib

/-!
Shallow embedding of the trip-tracker routes of the Soozu/express-server
repository (src/routes/trackers.js) together with the confirmation-email
collaborator (src/utils/emailService.js) and the Prisma data model
(src/prisma/schema.prisma).

Timestamps are modelled as natural numbers (milliseconds since the epoch,
as produced by JavaScript `Date.now()`); `new Date() > d` becomes `now > d`.
Optional / nullable JavaScript values are modelled with `Option`.
The persistent store is a pair of lists (trips, trackers); Prisma's
`findUnique` on a unique column is `List.find?` on that column, and
`update where: {key}` maps the matching rows in place.
-/

/-- A row of the `trips` table, restricted to the columns the tracker
routes touch (`id`, `tripName`, `destination`, `startDate`). -/
structure Trip where
  id : String
  tripName : String
  destination : String
  startDate : Option Nat
deriving DecidableEq, Repr

/-- A row of the `trip_trackers` table (model `TripTracker` of
schema.prisma). Schema defaults: `isActive = true`, `accessCount = 0`;
`travelerName`, `phone`, `lastAccessed`, `expiresAt` are nullable. -/
structure Tracker where
  trackerId : String
  tripId : String
  email : String
  travelerName : Option String
  phone : Option String
  saveDate : Nat
  isActive : Bool
  accessCount : Nat
  lastAccessed : Option Nat
  expiresAt : Option Nat
  createdAt : Nat
deriving DecidableEq, Repr

/-- The persistent store visible to the tracker routes. -/
structure DB where
  trips : List Trip
  trackers : List Tracker
deriving DecidableEq, Repr

/-- `prisma.trip.findUnique({ where: { id } })`. -/
def findTripRow (db : DB) (tripId : String) : Option Trip :=
  db.trips.find? fun tr => tr.id == tripId

/-- `prisma.tripTracker.findUnique({ where: { trackerId } })`. -/
def findTrackerRow (db : DB) (tid : String) : Option Tracker :=
  db.trackers.find? fun t => t.trackerId == tid

/-- `prisma.tripTracker.update({ where: { trackerId }, data })`: rewrite the
stored row whose `trackerId` matches, leaving every other row alone. -/
def dbMapRow (db : DB) (tid : String) (f : Tracker → Tracker) : DB :=
  { db with trackers := db.trackers.map fun t => if t.trackerId == tid then f t else t }

/-- `data: { accessCount: { increment: 1 }, lastAccessed: new Date() }` —
the relative (database-native) increment applied to the stored row, not a
write-back of a previously fetched value. -/
def dbIncrementAccess (db : DB) (tid : String) (now : Nat) : DB :=
  dbMapRow db tid fun t => { t with accessCount := t.accessCount + 1, lastAccessed := some now }

/-- `data: { isActive: false }` of the DELETE route. -/
def dbDeactivate (db : DB) (tid : String) : DB :=
  dbMapRow db tid fun t => { t with isActive := false }

/-- `prisma.trip.update({ where: { id: tripId }, data: { startDate } })`. -/
def dbSetTripStartDate (db : DB) (tripId : String) (d : Nat) : DB :=
  { db with trips := db.trips.map fun tr => if tr.id == tripId then { tr with startDate := some d } else tr }

/-- `tracker.expiresAt && new Date() > tracker.expiresAt`. -/
def isExpired (t : Tracker) (now : Nat) : Bool :=
  match t.expiresAt with
  | some e => now > e
  | none => false

/-- `email && tracker.email !== email` — the guard of the routes that take
an optional `email` query parameter (`none` models an absent or empty,
i.e. falsy, query value). -/
def emailMismatch (email : Option String) (t : Tracker) : Bool :=
  match email with
  | some m => t.email != m
  | none => false

/-- An HTTP JSON envelope reduced to the fields the claims talk about:
the status code and the `error` string (absent on success). -/
structure ApiResponse where
  status : Nat
  error : Option String
deriving DecidableEq, Repr

/-- `GET /trackers/:trackerId` (src/routes/trackers.js lines 205-344):
find the tracker, then in order the not-found (404), inactive (410),
expired (410) and email-mismatch (403) checks; on the authorized path
perform the relative `accessCount` increment and set `lastAccessed`,
then answer 200. -/
def getTrackerHandler (db : DB) (tid : String) (email : Option String) (now : Nat) :
    ApiResponse × DB :=
  match findTrackerRow db tid with
  | none => ({ status := 404, error := some "Tracker not found" }, db)
  | some t =>
    if t.isActive = false then
      ({ status := 410, error := some "Tracker inactive" }, db)
    else if isExpired t now then
      ({ status := 410, error := some "Tracker expired" }, db)
    else if emailMismatch email t then
      ({ status := 403, error := some "Access denied" }, db)
    else
      ({ status := 200, error := none }, dbIncrementAccess db tid now)

/-- Body of the JSON answer of `GET /trackers/:trackerId/validate`. -/
structure ValidateResponse where
  success : Bool
  valid : Bool
  reason : Option String
deriving DecidableEq, Repr

/-- `GET /trackers/:trackerId/validate` (lines 589-649): the same
existence / active / expiry checks as the read route, but issuing no
database write at all. -/
def validateHandler (db : DB) (tid : String) (now : Nat) : ValidateResponse × DB :=
  match findTrackerRow db tid with
  | none => ({ success := false, valid := false, reason := some "Tracker not found" }, db)
  | some t =>
    if t.isActive = false then
      ({ success := false, valid := false, reason := some "Tracker is inactive" }, db)
    else if isExpired t now then
      ({ success := false, valid := false, reason := some "Tracker has expired" }, db)
    else
      ({ success := true, valid := true, reason := none }, db)

/-- A JavaScript value for an optional string field of a JSON PATCH body:
absent (`undefined`), explicitly null, or a string. -/
inductive JStr where
  | undef
  | nullv
  | val (s : String)
deriving DecidableEq, Repr

/-- A JavaScript value for the optional `expiresAt` field: absent, an
explicit falsy value (null / empty string), or a parsed date. -/
inductive JDate where
  | undef
  | nullv
  | val (d : Nat)
deriving DecidableEq, Repr

/-- The body of `PUT /trackers/:trackerId` after validation. -/
structure UpdatePatch where
  travelerName : JStr
  phone : JStr
  expiresAt : JDate
deriving DecidableEq, Repr

/-- `if (x !== undefined) updateData.x = x || null` for a string column:
an absent field leaves the column alone, null or the empty string clears
it, a non-empty string overwrites it. -/
def applyStr (j : JStr) (old : Option String) : Option String :=
  match j with
  | .undef => old
  | .nullv => none
  | .val s => if s = "" then none else some s

/-- `if (expiresAt !== undefined) updateData.expiresAt = expiresAt ? new Date(expiresAt) : null`. -/
def applyDate (j : JDate) (old : Option Nat) : Option Nat :=
  match j with
  | .undef => old
  | .nullv => none
  | .val d => some d

/-- The `updateData` object of the PUT route applied to a stored row:
only the fields present in the body are written. -/
def applyPatch (p : UpdatePatch) (t : Tracker) : Tracker :=
  { t with
    travelerName := applyStr p.travelerName t.travelerName
    phone := applyStr p.phone t.phone
    expiresAt := applyDate p.expiresAt t.expiresAt }

/-- `PUT /trackers/:trackerId` (lines 397-483): find the tracker (404),
check the optional email query parameter (403), then write exactly the
`updateData` fields to the stored row and answer 200. -/
def putTrackerHandler (db : DB) (tid : String) (email : Option String) (p : UpdatePatch) :
    ApiResponse × DB :=
  match findTrackerRow db tid with
  | none => ({ status := 404, error := some "Tracker not found" }, db)
  | some t =>
    if emailMismatch email t then
      ({ status := 403, error := some "Access denied" }, db)
    else
      ({ status := 200, error := none }, dbMapRow db tid (applyPatch p))

/-- `DELETE /trackers/:trackerId` (lines 486-529): find the tracker (404),
check the optional email query parameter (403), then set `isActive = false`. -/
def deleteTrackerHandler (db : DB) (tid : String) (email : Option String) :
    ApiResponse × DB :=
  match findTrackerRow db tid with
  | none => ({ status := 404, error := some "Tracker not found" }, db)
  | some t =>
    if emailMismatch email t then
      ({ status := 403, error := some "Access denied" }, db)
    else
      ({ status := 200, error := none }, dbDeactivate db tid)

/-- `existing !== null` for a candidate tracker id: does it collide with
the persisted tracker set? -/
def collides (db : DB) (tid : String) : Bool :=
  (findTrackerRow db tid).isSome

/-- The retry loop of `ensureUniqueTrackerId` starting at attempt index
`start` with `fuel` iterations left. `gen k` is the value produced by the
`generateTrackerId()` call of attempt `k`. Besides the result (`none`
models the thrown `Unable to generate unique tracker ID` error) the pair
carries the number of generate-and-check iterations actually performed. -/
def ensureUniqueFrom (db : DB) (gen : Nat → String) (start fuel : Nat) :
    Option String × Nat :=
  match fuel with
  | 0 => (none, 0)
  | f + 1 =>
    let tid := gen start
    if collides db tid then
      let r := ensureUniqueFrom db gen (start + 1) f
      (r.1, r.2 + 1)
    else
      (some tid, 1)

/-- `ensureUniqueTrackerId(maxAttempts)` (lines 52-66); the route calls it
with the default `maxAttempts = 10`. -/
def ensureUniqueTrackerId (db : DB) (gen : Nat → String) (maxAttempts : Nat) :
    Option String × Nat :=
  ensureUniqueFrom db gen 0 maxAttempts

/-- Outcome of `sendTripTrackerEmail` as seen by the create route: a
returned `{success: true, messageId}`, a returned `{success: false, error}`
(emailService.js catches its own errors and returns this), or a thrown
error (guarded by the route's inner try/catch). -/
inductive EmailOutcome where
  | success (msgId : String)
  | failure (err : String)
  | thrown (err : String)
deriving DecidableEq, Repr

/-- The request body of `POST /trackers` after validation. `none` for
`travelerName` / `phone` also covers the falsy values that
`travelerName || null` maps to null. -/
structure CreateIn where
  tripId : String
  email : String
  travelerName : Option String
  phone : Option String
  saveDate : Option Nat
  startDate : Option Nat
  expiresAt : Option Nat
deriving DecidableEq, Repr

/-- The `trackerData` row inserted by `prisma.tripTracker.create`
(lines 100-108 plus the schema defaults `isActive = true`,
`accessCount = 0`, `lastAccessed = null`, `createdAt = now`). -/
def mkTrackerRow (inp : CreateIn) (tid : String) (now : Nat) : Tracker :=
  { trackerId := tid
    tripId := inp.tripId
    email := inp.email
    travelerName := inp.travelerName
    phone := inp.phone
    saveDate := inp.saveDate.getD now
    isActive := true
    accessCount := 0
    lastAccessed := none
    expiresAt := inp.expiresAt
    createdAt := now }

/-- What `POST /trackers` did: the HTTP answer, whether the
confirmation-email dispatch was attempted, the console line the dispatch
produced, and the resulting store. -/
structure CreateOutcome where
  status : Nat
  error : Option String
  newTrackerId : Option String
  emailAttempted : Bool
  emailLog : Option String
  db : DB
deriving DecidableEq, Repr

/-- `POST /trackers` (lines 69-202), in source order: trip lookup (404),
`ensureUniqueTrackerId` (a throw lands in the outer catch: 500, nothing
written yet), the unconditional trip `startDate` update (the request value
if supplied, otherwise today), the tracker insert (`insertOk = false`
models a failed insert, e.g. a constraint violation: the outer catch
answers 500 and nothing rolls the earlier trip update back), then the
confirmation-email dispatch whose outcome is only logged, and 201. -/
def postTracker (db : DB) (inp : CreateIn) (gen : Nat → String) (maxAttempts : Nat)
    (insertOk : Bool) (emailOut : EmailOutcome) (now : Nat) : CreateOutcome :=
  match findTripRow db inp.tripId with
  | none =>
    { status := 404, error := some "Trip not found", newTrackerId := none
      emailAttempted := false, emailLog := none, db := db }
  | some _ =>
    match (ensureUniqueTrackerId db gen maxAttempts).1 with
    | none =>
      { status := 500, error := some "Failed to create tracker", newTrackerId := none
        emailAttempted := false, emailLog := none, db := db }
    | some tid =>
      let db1 := dbSetTripStartDate db inp.tripId (inp.startDate.getD now)
      if insertOk then
        let db2 : DB := { db1 with trackers := db1.trackers ++ [mkTrackerRow inp tid now] }
        let log : String :=
          match emailOut with
          | .success _ => "Trip tracker email sent successfully"
          | .failure e => "Failed to send trip tracker email: " ++ e
          | .thrown e => "Error sending trip tracker email: " ++ e
        { status := 201, error := none, newTrackerId := some tid
          emailAttempted := true, emailLog := some log, db := db2 }
      else
        { status := 500, error := some "Failed to create tracker", newTrackerId := none
          emailAttempted := false, emailLog := none, db := db1 }

/-- The decimal digits of a natural number, most significant first — the
character sequence of JavaScript `Number.prototype.toString()` on an
integer value. -/
def decDigits (n : Nat) : List Nat :=
  if h : n < 10 then [n]
  else
    have : n / 10 < n := Nat.div_lt_self (by omega) (by omega)
    decDigits (n / 10) ++ [n % 10]

/-- A decimal digit rendered as a character. -/
def decDigitChar (d : Nat) : Char :=
  Char.ofNat (48 + d)

/-- A base-36 digit as JavaScript renders it in
`Math.random().toString(36)` followed by `.toUpperCase()`:
0-9 stay digits, 10-35 become capital A-Z. -/
def base36UpperChar (d : Nat) : Char :=
  if d < 10 then Char.ofNat (48 + d) else Char.ofNat (55 + d)

/-- `s.slice(-4)` on a character list: the last four characters, or the
whole list when it is shorter. -/
def sliceLastFour (l : List Char) : List Char :=
  l.drop (l.length - 4)

/-- `generateTrackerId` (lines 44-49). `frac` is the list of base-36
fractional digits of the `Math.random()` value, the digits that
`toString(36)` prints after the leading `0.` (empty for the value 0,
whose rendering `0` has nothing at index ≥ 2); `substring(2, 8)` keeps at
most the first six of them, `toUpperCase` capitalises them, and
`Date.now().toString().slice(-4)` contributes the last four decimal
digits of the current millisecond timestamp `now`. -/
def generateTrackerId (frac : List Nat) (now : Nat) : String :=
  "TRK" ++ String.mk ((frac.take 6).map base36UpperChar)
    ++ String.mk (sliceLastFour ((decDigits now).map decDigitChar))

/-- Updating the rows selected by a key predicate with a key-preserving
function commutes with `find?` on that key. -/
theorem find?_map_ite {α : Type} (p : α → Bool) (f : α → α) (hp : ∀ a, p (f a) = p a) :
    ∀ l : List α, (l.map fun a => if p a then f a else a).find? p = (l.find? p).map f := by
  intro l
  induction l with
  | nil => rfl
  | cons a l ih =>
    cases h : p a with
    | true => simp [List.find?_cons, h, hp]
    | false => simp [List.find?_cons, h, ih]

/-- `find?` skips a prefix in which it finds nothing. -/
theorem find?_append_of_none {α : Type} (p : α → Bool) :
    ∀ l : List α, l.find? p = none → ∀ r, (l ++ r).find? p = r.find? p := by
  intro l
  induction l with
  | nil => intro _ r; rfl
  | cons a l ih =>
    intro h r
    cases hp : p a with
    | true => simp [List.find?_cons, hp] at h
    | false =>
      simp only [List.cons_append, List.find?_cons, hp, cond_false] at h ⊢
      exact ih h r

/-- The retry loop runs at most `fuel` generate-and-check iterations. -/
theorem ensureUniqueFrom_count_le (db : DB) (gen : Nat → String) :
    ∀ fuel start, (ensureUniqueFrom db gen start fuel).2 ≤ fuel := by
  intro fuel
  induction fuel with
  | zero => intro start; simp [ensureUniqueFrom]
  | succ f ih =>
    intro start
    simp only [ensureUniqueFrom]
    cases h : collides db (gen start) with
    | true => simpa [h] using ih (start + 1)
    | false => simp [h]

/-- When the retry loop succeeds it returns the first candidate of the
window that does not collide, after exactly one check beyond the
colliding ones. -/
theorem ensureUniqueFrom_some (db : DB) (gen : Nat → String) :
    ∀ fuel start tid, (ensureUniqueFrom db gen start fuel).1 = some tid →
      ∃ k, k < fuel ∧ tid = gen (start + k) ∧ collides db tid = false ∧
        (∀ j, j < k → collides db (gen (start + j)) = true) ∧
        (ensureUniqueFrom db gen start fuel).2 = k + 1 := by
  intro fuel
  induction fuel with
  | zero => intro start tid h; simp [ensureUniqueFrom] at h
  | succ f ih =>
    intro start tid h
    simp only [ensureUniqueFrom] at h ⊢
    cases hc : collides db (gen start) with
    | true =>
      simp only [hc, if_true] at h ⊢
      obtain ⟨k, hk, htid, hcoll, hall, hcount⟩ := ih (start + 1) tid h
      refine ⟨k + 1, by omega, by rw [htid]; ring_nf, hcoll, ?_, by simp [hcount]⟩
      intro j hj
      cases j with
      | zero => simpa using hc
      | succ j' =>
        have := hall j' (by omega)
        have harg : start + 1 + j' = start + (j' + 1) := by omega
        rw [harg] at this
        exact this
    | false =>
      simp only [hc, if_false] at h ⊢
      refine ⟨0, by omega, ?_, ?_, by omega, by simp⟩
      · simpa using h.symm
      · cases h; exact hc

/-- When every candidate of the window collides, the retry loop exhausts
exactly its fuel and fails. -/
theorem ensureUniqueFrom_all_collide (db : DB) (gen : Nat → String) :
    ∀ fuel start, (∀ k, k < fuel → collides db (gen (start + k)) = true) →
      ensureUniqueFrom db gen start fuel = (none, fuel) := by
  intro fuel
  induction fuel with
  | zero => intro start _; rfl
  | succ f ih =>
    intro start hall
    have h0 : collides db (gen start) = true := by simpa using hall 0 (by omega)
    simp only [ensureUniqueFrom, h0, if_true]
    have : ensureUniqueFrom db gen (start + 1) f = (none, f) := by
      apply ih
      intro k hk
      have := hall (k + 1) (by omega)
      have harg : start + (k + 1) = start + 1 + k := by omega
      rw [harg] at this
      exact this
    rw [this]

/-- Every entry of `decDigits n` is a decimal digit. -/
theorem decDigits_mem_lt (n : Nat) : ∀ d ∈ decDigits n, d < 10 := by
  induction n using Nat.strong_induction_on with
  | _ n ih =>
    rw [decDigits]
    split
    · intro d hd
      simp only [List.mem_singleton] at hd
      omega
    · intro d hd
      rw [List.mem_append] at hd
      rcases hd with hd | hd
      · exact ih (n / 10) (Nat.div_lt_self (by omega) (by omega)) d hd
      · simp only [List.mem_singleton] at hd
        subst hd
        exact Nat.mod_lt _ (by omega)

/-- A number at least `10 ^ k` prints with more than `k` decimal digits. -/
theorem decDigits_length_ge (k : Nat) : ∀ n, 10 ^ k ≤ n → k + 1 ≤ (decDigits n).length := by
  induction k with
  | zero =>
    intro n _
    rw [decDigits]
    split
    · simp
    · simp
  | succ k ih =>
    intro n hn
    have hten : (10 : Nat) ≤ 10 ^ (k + 1) := by
      calc (10 : Nat) = 10 ^ 1 := by norm_num
        _ ≤ 10 ^ (k + 1) := Nat.pow_le_pow_right (by omega) (by omega)
    rw [decDigits]
    split
    · omega
    · have hdiv : 10 ^ k ≤ n / 10 := by
        rw [Nat.le_div_iff_mul_le (by omega)]
        calc 10 ^ k * 10 = 10 ^ (k + 1) := by ring
          _ ≤ n := hn
      have := ih (n / 10) hdiv
      simp only [List.length_append, List.length_singleton]
      omega

/-- A decimal digit renders as a character satisfying `Char.isDigit`. -/
theorem decDigitChar_isDigit (d : Nat) (h : d < 10) : (decDigitChar d).isDigit = true := by
  interval_cases d <;> decide

/-- An uppercased base-36 digit is a decimal digit character or a capital
letter between A and Z. -/
theorem base36UpperChar_range (d : Nat) (h : d < 36) :
    (base36UpperChar d).isDigit = true ∨ ('A' ≤ base36UpperChar d ∧ base36UpperChar d ≤ 'Z') := by
  interval_cases d <;> first | (left; decide) | (right; exact ⟨by decide, by decide⟩)

/-- `slice(-4)` keeps at most four characters. -/
theorem sliceLastFour_length_le (l : List Char) : (sliceLastFour l).length ≤ 4 := by
  simp only [sliceLastFour, List.length_drop]
  omega

/-- `slice(-4)` of a string of at least four characters keeps exactly four. -/
theorem sliceLastFour_length_eq (l : List Char) (h : 4 ≤ l.length) :
    (sliceLastFour l).length = 4 := by
  simp only [sliceLastFour, List.length_drop]
  omega

/-- `slice(-4)` keeps characters of the original string. -/
theorem sliceLastFour_subset (l : List Char) : ∀ c ∈ sliceLastFour l, c ∈ l := by
  intro c hc
  exact List.drop_subset _ l hc

/-- Reading the updated row back after the access-count update. -/
theorem findTrackerRow_increment (db : DB) (tid : String) (now : Nat) :
    findTrackerRow (dbIncrementAccess db tid now) tid
      = (findTrackerRow db tid).map
          (fun t => { t with accessCount := t.accessCount + 1, lastAccessed := some now }) := by
  unfold findTrackerRow dbIncrementAccess dbMapRow
  exact find?_map_ite (fun t => t.trackerId == tid)
    (fun t => { t with accessCount := t.accessCount + 1, lastAccessed := some now })
    (fun _ => rfl) db.trackers

/-- Reading the updated row back after the PUT route's field update. -/
theorem findTrackerRow_applyPatch (db : DB) (tid : String) (p : UpdatePatch) :
    findTrackerRow (dbMapRow db tid (applyPatch p)) tid
      = (findTrackerRow db tid).map (applyPatch p) := by
  unfold findTrackerRow dbMapRow
  exact find?_map_ite (fun t => t.trackerId == tid) (applyPatch p) (fun _ => rfl) db.trackers

/-- Reading the trip back after the start-date update. -/
theorem findTripRow_setStart (db : DB) (tripId : String) (d : Nat) :
    findTripRow (dbSetTripStartDate db tripId d) tripId
      = (findTripRow db tripId).map (fun tr => { tr with startDate := some d }) := by
  unfold findTripRow dbSetTripStartDate
  exact find?_map_ite (fun tr => tr.id == tripId)
    (fun tr => { tr with startDate := some d }) (fun _ => rfl) db.trips

/-- C1: on `GET /trackers/:token` the denial reasons are evaluated in the
order NotFound (404), Inactive (410, regardless of email or expiry),
Expired (410, even when `isActive` is true), EmailMismatch (403, only when
an email is supplied and differs from the stored one); with no email
supplied the email check is skipped and the read is authorized. -/
theorem getTracker_denial_order (db : DB) (tid : String) (email : Option String) (now : Nat) :
    (findTrackerRow db tid = none →
      (getTrackerHandler db tid email now).1 = { status := 404, error := some "Tracker not found" }) ∧
    (∀ t, findTrackerRow db tid = some t → t.isActive = false →
      (getTrackerHandler db tid email now).1 = { status := 410, error := some "Tracker inactive" }) ∧
    (∀ t e, findTrackerRow db tid = some t → t.isActive = true → t.expiresAt = some e → e < now →
      (getTrackerHandler db tid email now).1 = { status := 410, error := some "Tracker expired" }) ∧
    (∀ t m, findTrackerRow db tid = some t → t.isActive = true → isExpired t now = false →
      email = some m → m ≠ t.email →
      (getTrackerHandler db tid email now).1 = { status := 403, error := some "Access denied" }) ∧
    (∀ t, findTrackerRow db tid = some t → t.isActive = true → isExpired t now = false →
      email = none →
      (getTrackerHandler db tid email now).1 = { status := 200, error := none }) := by
  refine ⟨?_, ?_, ?_, ?_, ?_⟩
  · intro h
    simp [getTrackerHandler, h]
  · intro t ht hact
    simp [getTrackerHandler, ht, hact]
  · intro t e ht hact hexp hlt
    have hx : isExpired t now = true := by
      simp only [isExpired, hexp, decide_eq_true_eq]
      omega
    simp [getTrackerHandler, ht, hact, hx]
  · intro t m ht hact hnx hmail hneq
    have hmm : emailMismatch email t = true := by
      simp only [emailMismatch, hmail, bne_iff_ne]
      exact fun h => hneq h.symm
    simp [getTrackerHandler, ht, hact, hnx, hmm]
  · intro t ht hact hnx hmail
    simp [getTrackerHandler, ht, hact, hnx, hmail, emailMismatch]

/-- C2: a successful `GET /trackers/:token` increments the stored
`accessCount` of exactly that tracker by 1 through the relative database
update and sets `lastAccessed` to now; every denied read leaves the store
untouched. -/
theorem getTracker_access_audit (db : DB) (tid : String) (email : Option String) (now : Nat) :
    (∀ t, findTrackerRow db tid = some t → t.isActive = true → isExpired t now = false →
      emailMismatch email t = false →
      (getTrackerHandler db tid email now).1.status = 200 ∧
      findTrackerRow (getTrackerHandler db tid email now).2 tid
        = some { t with accessCount := t.accessCount + 1, lastAccessed := some now }) ∧
    ((getTrackerHandler db tid email now).1.status ≠ 200 →
      (getTrackerHandler db tid email now).2 = db) := by
  constructor
  · intro t ht hact hnx hmm
    have hout : getTrackerHandler db tid email now
        = ({ status := 200, error := none }, dbIncrementAccess db tid now) := by
      simp [getTrackerHandler, ht, hact, hnx, hmm]
    rw [hout]
    refine ⟨rfl, ?_⟩
    rw [findTrackerRow_increment, ht]
    rfl
  · intro hne
    cases hfind : findTrackerRow db tid with
    | none =>
      have hout : getTrackerHandler db tid email now
          = ({ status := 404, error := some "Tracker not found" }, db) := by
        simp [getTrackerHandler, hfind]
      rw [hout]
    | some t =>
      by_cases h1 : t.isActive = false
      · have hout : getTrackerHandler db tid email now
            = ({ status := 410, error := some "Tracker inactive" }, db) := by
          simp [getTrackerHandler, hfind, h1]
        rw [hout]
      · by_cases h2 : isExpired t now = true
        · have hout : getTrackerHandler db tid email now
              = ({ status := 410, error := some "Tracker expired" }, db) := by
            simp [getTrackerHandler, hfind, h1, h2]
          rw [hout]
        · by_cases h3 : emailMismatch email t = true
          · have hout : getTrackerHandler db tid email now
                = ({ status := 403, error := some "Access denied" }, db) := by
              simp [getTrackerHandler, hfind, h1, h2, h3]
            rw [hout]
          · exfalso
            apply hne
            have hout : getTrackerHandler db tid email now
                = ({ status := 200, error := none }, dbIncrementAccess db tid now) := by
              simp [getTrackerHandler, hfind, h1, h2, h3]
            rw [hout]

/-- C5: for `maxAttempts ≥ 1`, `ensureUniqueTrackerId` performs at most
`maxAttempts` generate-and-check iterations and returns the first
generated identifier with no collision against the persisted tracker set;
when every one of the `maxAttempts` candidates collides it fails after
exactly `maxAttempts` attempts, and `POST /trackers` surfaces that
failure as a 500 server error. -/
theorem ensureUnique_bounded_retry (db : DB) (gen : Nat → String) (maxAttempts : Nat)
    (hmax : 1 ≤ maxAttempts) :
    (ensureUniqueTrackerId db gen maxAttempts).2 ≤ maxAttempts ∧
    (∀ tid, (ensureUniqueTrackerId db gen maxAttempts).1 = some tid →
      collides db tid = false ∧
      ∃ k, k < maxAttempts ∧ tid = gen k ∧ (∀ j, j < k → collides db (gen j) = true) ∧
        (ensureUniqueTrackerId db gen maxAttempts).2 = k + 1) ∧
    ((∀ k, k < maxAttempts → collides db (gen k) = true) →
      (ensureUniqueTrackerId db gen maxAttempts).1 = none ∧
      (ensureUniqueTrackerId db gen maxAttempts).2 = maxAttempts) ∧
    (∀ inp insertOk emailOut now, (ensureUniqueTrackerId db gen maxAttempts).1 = none →
      (findTripRow db inp.tripId).isSome = true →
      (postTracker db inp gen maxAttempts insertOk emailOut now).status = 500) := by
  refine ⟨ensureUniqueFrom_count_le db gen maxAttempts 0, ?_, ?_, ?_⟩
  · intro tid h
    obtain ⟨k, hk, htid, hcoll, hall, hcount⟩ := ensureUniqueFrom_some db gen maxAttempts 0 tid h
    refine ⟨hcoll, k, hk, by simpa using htid, ?_, hcount⟩
    intro j hj
    simpa using hall j hj
  · intro hall
    have := ensureUniqueFrom_all_collide db gen maxAttempts 0 (fun k hk => by simpa using hall k hk)
    unfold ensureUniqueTrackerId
    rw [this]
    exact ⟨rfl, rfl⟩
  · intro inp insertOk emailOut now hnone hsome
    unfold postTracker
    cases hfind : findTripRow db inp.tripId with
    | none => rw [hfind] at hsome; simp at hsome
    | some trip => rw [hnone]

/-- C6: `PUT /trackers/:token` and `DELETE /trackers/:token` with a
supplied email different from the stored one answer 403 and leave the
store — in particular every field of the tracker — completely unchanged. -/
theorem updateDelete_mismatch_unchanged (db : DB) (tid : String) (e : String) (t : Tracker)
    (p : UpdatePatch) (hfind : findTrackerRow db tid = some t) (hne : e ≠ t.email) :
    (putTrackerHandler db tid (some e) p).1.status = 403 ∧
    (putTrackerHandler db tid (some e) p).2 = db ∧
    (deleteTrackerHandler db tid (some e)).1.status = 403 ∧
    (deleteTrackerHandler db tid (some e)).2 = db := by
  have hmm : emailMismatch (some e) t = true := by
    simp only [emailMismatch, bne_iff_ne]
    exact fun h => hne h.symm
  refine ⟨?_, ?_, ?_, ?_⟩ <;>
    simp [putTrackerHandler, deleteTrackerHandler, hfind, hmm]

/-- C7: `PUT /trackers/:token` with a matching or absent email succeeds
for every tracker — no matter its `isActive` flag or `expiresAt` value —
and applies partial-update semantics to the stored row: a patch field
that is absent leaves the column untouched, an explicit null (or empty
string) clears it, a real value overwrites it, and every column outside
the patch surface is unchanged. -/
theorem update_partial_semantics (db : DB) (tid : String) (email : Option String)
    (p : UpdatePatch) (t : Tracker) (hfind : findTrackerRow db tid = some t)
    (hmail : email = none ∨ email = some t.email) :
    (putTrackerHandler db tid email p).1.status = 200 ∧
    findTrackerRow (putTrackerHandler db tid email p).2 tid = some (applyPatch p t) ∧
    (p.travelerName = JStr.undef → (applyPatch p t).travelerName = t.travelerName) ∧
    (p.travelerName = JStr.nullv → (applyPatch p t).travelerName = none) ∧
    (∀ s, p.travelerName = JStr.val s →
      (applyPatch p t).travelerName = if s = "" then none else some s) ∧
    (p.phone = JStr.undef → (applyPatch p t).phone = t.phone) ∧
    (p.phone = JStr.nullv → (applyPatch p t).phone = none) ∧
    (∀ s, p.phone = JStr.val s → (applyPatch p t).phone = if s = "" then none else some s) ∧
    (p.expiresAt = JDate.undef → (applyPatch p t).expiresAt = t.expiresAt) ∧
    (p.expiresAt = JDate.nullv → (applyPatch p t).expiresAt = none) ∧
    (∀ d, p.expiresAt = JDate.val d → (applyPatch p t).expiresAt = some d) ∧
    (applyPatch p t).trackerId = t.trackerId ∧
    (applyPatch p t).tripId = t.tripId ∧
    (applyPatch p t).email = t.email ∧
    (applyPatch p t).saveDate = t.saveDate ∧
    (applyPatch p t).isActive = t.isActive ∧
    (applyPatch p t).accessCount = t.accessCount ∧
    (applyPatch p t).lastAccessed = t.lastAccessed ∧
    (applyPatch p t).createdAt = t.createdAt := by
  have hmm : emailMismatch email t = false := by
    rcases hmail with h | h <;> simp [emailMismatch, h]
  have hout : putTrackerHandler db tid email p
      = ({ status := 200, error := none }, dbMapRow db tid (applyPatch p)) := by
    simp [putTrackerHandler, hfind, hmm]
  rw [hout]
  refine ⟨rfl, ?_, ?_, ?_, ?_, ?_, ?_, ?_, ?_, ?_, ?_, rfl, rfl, rfl, rfl, rfl, rfl, rfl, rfl⟩
  · rw [findTrackerRow_applyPatch, hfind]
    rfl
  · intro h; simp [applyPatch, applyStr, h]
  · intro h; simp [applyPatch, applyStr, h]
  · intro s h; simp [applyPatch, applyStr, h]
  · intro h; simp [applyPatch, applyStr, h]
  · intro h; simp [applyPatch, applyStr, h]
  · intro s h; simp [applyPatch, applyStr, h]
  · intro h; simp [applyPatch, applyDate, h]
  · intro h; simp [applyPatch, applyDate, h]
  · intro d h; simp [applyPatch, applyDate, h]

/-- C8: `GET /trackers/:token/validate` never changes the store (no
access-count increment, no `lastAccessed` write), answers `valid = true`
exactly when the tracker exists, is active and is not past its optional
expiry, and carries a reason whenever invalid. -/
theorem validate_pure_probe (db : DB) (tid : String) (now : Nat) :
    (validateHandler db tid now).2 = db ∧
    ((validateHandler db tid now).1.valid = true ↔
      ∃ t, findTrackerRow db tid = some t ∧ t.isActive = true ∧ isExpired t now = false) ∧
    ((validateHandler db tid now).1.valid = false →
      (validateHandler db tid now).1.reason.isSome = true) := by
  cases hfind : findTrackerRow db tid with
  | none =>
    have hout : validateHandler db tid now
        = ({ success := false, valid := false, reason := some "Tracker not found" }, db) := by
      simp [validateHandler, hfind]
    rw [hout]
    refine ⟨rfl, ?_, fun _ => rfl⟩
    simp [hfind]
  | some t =>
    by_cases h1 : t.isActive = false
    · have hout : validateHandler db tid now
          = ({ success := false, valid := false, reason := some "Tracker is inactive" }, db) := by
        simp [validateHandler, hfind, h1]
      rw [hout]
      refine ⟨rfl, ?_, fun _ => rfl⟩
      simp [hfind, h1]
    · by_cases h2 : isExpired t now = true
      · have hout : validateHandler db tid now
            = ({ success := false, valid := false, reason := some "Tracker has expired" }, db) := by
          simp [validateHandler, hfind, h1, h2]
        rw [hout]
        refine ⟨rfl, ?_, fun _ => rfl⟩
        constructor
        · intro h; exact absurd h (by simp)
        · rintro ⟨t', ht', _, hx⟩
          obtain rfl : t = t' := by injection ht'
          rw [h2] at hx
          exact absurd hx (by simp)
      · have hout : validateHandler db tid now
            = ({ success := true, valid := true, reason := none }, db) := by
          simp [validateHandler, hfind, h1, h2]
        rw [hout]
        refine ⟨rfl, ?_, ?_⟩
        · constructor
          · intro _
            exact ⟨t, rfl, by simpa using h1, by simpa using h2⟩
          · intro _; rfl
        · intro h; exact absurd h (by simp)

/-- Once the trip lookup and the identifier generation of the create
route have succeeded, the trips table of the resulting store is exactly
the original one with the start date rewritten, whether or not the
tracker insert succeeds. -/
theorem postTracker_trips (db : DB) (inp : CreateIn) (gen : Nat → String) (maxAttempts : Nat)
    (insertOk : Bool) (emailOut : EmailOutcome) (now : Nat) (tid : String)
    (htrip : (findTripRow db inp.tripId).isSome = true)
    (hgen : (ensureUniqueTrackerId db gen maxAttempts).1 = some tid) :
    (postTracker db inp gen maxAttempts insertOk emailOut now).db.trips
      = (dbSetTripStartDate db inp.tripId (inp.startDate.getD now)).trips := by
  unfold postTracker
  cases hfind : findTripRow db inp.tripId with
  | none => rw [hfind] at htrip; simp at htrip
  | some trip =>
    rw [hgen]
    cases insertOk with
    | true => rfl
    | false => rfl

/-- C4: a create on an existing trip whose identifier generation goes
through always rewrites the trip's start date — to the supplied
`startDate` when one is given, and to the current date when none is,
even if the trip already had a start date. -/
theorem create_startDate_overwrite (db : DB) (inp : CreateIn) (gen : Nat → String)
    (maxAttempts : Nat) (insertOk : Bool) (emailOut : EmailOutcome) (now : Nat)
    (trip : Trip) (tid : String)
    (htrip : findTripRow db inp.tripId = some trip)
    (hgen : (ensureUniqueTrackerId db gen maxAttempts).1 = some tid) :
    (inp.startDate = none →
      findTripRow (postTracker db inp gen maxAttempts insertOk emailOut now).db inp.tripId
        = some { trip with startDate := some now }) ∧
    (∀ d, inp.startDate = some d →
      findTripRow (postTracker db inp gen maxAttempts insertOk emailOut now).db inp.tripId
        = some { trip with startDate := some d }) := by
  have htrips := postTracker_trips db inp gen maxAttempts insertOk emailOut now tid
    (by rw [htrip]; rfl) hgen
  have hset := findTripRow_setStart db inp.tripId (inp.startDate.getD now)
  have hfind2 : findTripRow (postTracker db inp gen maxAttempts insertOk emailOut now).db
      inp.tripId = some { trip with startDate := some (inp.startDate.getD now) } := by
    have htrip2 := htrip
    unfold findTripRow at hset htrip2 ⊢
    rw [htrips, hset, htrip2]
    rfl
  constructor
  · intro h
    rw [h] at hfind2
    exact hfind2
  · intro d h
    rw [h] at hfind2
    exact hfind2

/-- C3 (amended): when the tracker insert of the create route fails, no
notification attempt occurs, nothing is logged for it, no tracker row is
added and the failure is reported as a 500 server error — but the trip
start-date update issued before the insert persists (it is not rolled
back). -/
theorem create_insert_failure_partial (db : DB) (inp : CreateIn) (gen : Nat → String)
    (maxAttempts : Nat) (emailOut : EmailOutcome) (now : Nat) (trip : Trip) (tid : String)
    (htrip : findTripRow db inp.tripId = some trip)
    (hgen : (ensureUniqueTrackerId db gen maxAttempts).1 = some tid) :
    (postTracker db inp gen maxAttempts false emailOut now).status = 500 ∧
    (postTracker db inp gen maxAttempts false emailOut now).emailAttempted = false ∧
    (postTracker db inp gen maxAttempts false emailOut now).emailLog = none ∧
    (postTracker db inp gen maxAttempts false emailOut now).db.trackers = db.trackers ∧
    findTripRow (postTracker db inp gen maxAttempts false emailOut now).db inp.tripId
      = some { trip with startDate := some (inp.startDate.getD now) } := by
  have hout : postTracker db inp gen maxAttempts false emailOut now
      = { status := 500, error := some "Failed to create tracker", newTrackerId := none
          emailAttempted := false, emailLog := none
          db := dbSetTripStartDate db inp.tripId (inp.startDate.getD now) } := by
    simp [postTracker, htrip, hgen]
  rw [hout]
  refine ⟨rfl, rfl, rfl, rfl, ?_⟩
  rw [findTripRow_setStart, htrip]
  rfl

/-- C9: once validation, trip lookup, identifier generation and the
tracker insert have succeeded, the create route answers 201 with the new
tracker regardless of the outcome of the confirmation-email dispatch — a
returned failure or a thrown error is only logged — and the inserted row
stays in the store. -/
theorem create_email_best_effort (db : DB) (inp : CreateIn) (gen : Nat → String)
    (maxAttempts : Nat) (emailOut : EmailOutcome) (now : Nat) (trip : Trip) (tid : String)
    (htrip : findTripRow db inp.tripId = some trip)
    (hgen : (ensureUniqueTrackerId db gen maxAttempts).1 = some tid) :
    (postTracker db inp gen maxAttempts true emailOut now).status = 201 ∧
    (postTracker db inp gen maxAttempts true emailOut now).error = none ∧
    (postTracker db inp gen maxAttempts true emailOut now).newTrackerId = some tid ∧
    (postTracker db inp gen maxAttempts true emailOut now).emailAttempted = true ∧
    (postTracker db inp gen maxAttempts true emailOut now).emailLog.isSome = true ∧
    findTrackerRow (postTracker db inp gen maxAttempts true emailOut now).db tid
      = some (mkTrackerRow inp tid now) := by
  have hnone : findTrackerRow db tid = none := by
    obtain ⟨k, _, _, hcoll, _, _⟩ := ensureUniqueFrom_some db gen maxAttempts 0 tid hgen
    unfold collides at hcoll
    cases hf : findTrackerRow db tid with
    | none => rfl
    | some t => rw [hf] at hcoll; simp at hcoll
  have hout : postTracker db inp gen maxAttempts true emailOut now
      = { status := 201, error := none, newTrackerId := some tid
          emailAttempted := true
          emailLog := some (match emailOut with
            | .success _ => "Trip tracker email sent successfully"
            | .failure e => "Failed to send trip tracker email: " ++ e
            | .thrown e => "Error sending trip tracker email: " ++ e)
          db := { dbSetTripStartDate db inp.tripId (inp.startDate.getD now) with
                  trackers := db.trackers ++ [mkTrackerRow inp tid now] } } := by
    simp [postTracker, htrip, hgen, dbSetTripStartDate]
  rw [hout]
  refine ⟨rfl, rfl, rfl, rfl, rfl, ?_⟩
  unfold findTrackerRow at hnone ⊢
  rw [find?_append_of_none _ db.trackers hnone [mkTrackerRow inp tid now]]
  simp [List.find?_cons, mkTrackerRow]

/-- C10: every token of `generateTrackerId` starts with the literal
prefix TRK, ends in exactly the last four decimal digits of the current
millisecond timestamp, and keeps a middle randomized segment of at most
six characters drawn from 0-9 and A-Z — possibly fewer than six, so the
total length is at most 13 but not guaranteed to be exactly 13 (for the
random value 0 the token has only 7 characters). -/
theorem generateTrackerId_format (frac : List Nat) (now : Nat)
    (h36 : ∀ d ∈ frac, d < 36) (hnow : 1000 ≤ now) :
    (∃ mid suf : List Char,
      (generateTrackerId frac now).data = ['T', 'R', 'K'] ++ mid ++ suf ∧
      mid.length ≤ 6 ∧
      (∀ c ∈ mid, c.isDigit = true ∨ ('A' ≤ c ∧ c ≤ 'Z')) ∧
      suf = sliceLastFour ((decDigits now).map decDigitChar) ∧
      suf.length = 4 ∧
      (∀ c ∈ suf, c.isDigit = true) ∧
      (generateTrackerId frac now).data.drop ((generateTrackerId frac now).data.length - 4)
        = suf) ∧
    (generateTrackerId frac now).length ≤ 13 ∧
    (generateTrackerId [] now).length = 7 := by
  have hdata : ∀ fr : List Nat, (generateTrackerId fr now).data
      = ['T', 'R', 'K'] ++ ((fr.take 6).map base36UpperChar
        ++ sliceLastFour ((decDigits now).map decDigitChar)) := by
    intro fr
    simp [generateTrackerId, String.data_append]
  have h1000 : (10 : Nat) ^ 3 ≤ now := by
    have hp : (10 : Nat) ^ 3 = 1000 := by norm_num
    omega
  have hsuflen : (sliceLastFour ((decDigits now).map decDigitChar)).length = 4 := by
    apply sliceLastFour_length_eq
    rw [List.length_map]
    have h := decDigits_length_ge 3 now h1000
    omega
  have hmidlen : ((frac.take 6).map base36UpperChar).length ≤ 6 := by
    rw [List.length_map, List.length_take]
    omega
  refine ⟨⟨(frac.take 6).map base36UpperChar,
           sliceLastFour ((decDigits now).map decDigitChar),
           hdata frac, hmidlen, ?_, rfl, hsuflen, ?_, ?_⟩, ?_, ?_⟩
  · intro c hc
    rw [List.mem_map] at hc
    obtain ⟨d, hd, rfl⟩ := hc
    exact base36UpperChar_range d (h36 d (List.mem_of_mem_take hd))
  · intro c hc
    have hmem := sliceLastFour_subset _ c hc
    rw [List.mem_map] at hmem
    obtain ⟨d, hd, rfl⟩ := hmem
    exact decDigitChar_isDigit d (decDigits_mem_lt now d hd)
  · rw [hdata frac, ← List.append_assoc, List.length_append, hsuflen]
    have h4 : (['T', 'R', 'K'] ++ (frac.take 6).map base36UpperChar).length + 4 - 4
        = (['T', 'R', 'K'] ++ (frac.take 6).map base36UpperChar).length := by omega
    rw [h4, List.drop_left]
  · show (generateTrackerId frac now).data.length ≤ 13
    rw [hdata frac]
    simp only [List.length_append, hsuflen, List.length_cons, List.length_nil]
    omega
  · show (generateTrackerId [] now).data.length = 7
    rw [hdata []]
    simp [hsuflen]

/-- A concrete trip that already has a start date. -/
def exTrip : Trip :=
  { id := "T1", tripName := "Beach Week", destination := "Palawan", startDate := some 5 }

/-- A concrete store holding that one trip and no trackers. -/
def exDb : DB := { trips := [exTrip], trackers := [] }

/-- A concrete create request that supplies no `startDate` field. -/
def exIn : CreateIn :=
  { tripId := "T1", email := "a@x.com", travelerName := none, phone := none,
    saveDate := none, startDate := none, expiresAt := none }

/-- A generator producing a fresh identifier on the first attempt. -/
def exGen : Nat → String := fun _ => "TRKAB121234"

/-- C3 (counterexample): a create on `exDb` whose tracker insert fails
still leaves the trip's start date overwritten to today — the operation
partially commits, refuting the claim that no persistent state change
remains after a failed insert (the notification is indeed not attempted
and a 500 is reported). -/
theorem create_atomicity_counterexample :
    (postTracker exDb exIn exGen 10 false (EmailOutcome.failure "smtp down") 100).status = 500 ∧
    (postTracker exDb exIn exGen 10 false (EmailOutcome.failure "smtp down") 100).emailAttempted
      = false ∧
    findTripRow exDb "T1" = some exTrip ∧
    exTrip.startDate = some 5 ∧
    findTripRow (postTracker exDb exIn exGen 10 false (EmailOutcome.failure "smtp down") 100).db
      "T1" = some { exTrip with startDate := some 100 } := by
  decide

/-- A concrete trip without a start date. -/
def wTrip : Trip :=
  { id := "T9", tripName := "City Hop", destination := "Cebu", startDate := none }

/-- A live tracker for that trip: active, no expiry, three reads so far. -/
def wTracker : Tracker :=
  { trackerId := "TRKZZ991111", tripId := "T9", email := "w@x.com",
    travelerName := none, phone := none, saveDate := 0, isActive := true, accessCount := 3,
    lastAccessed := none, expiresAt := some 90, createdAt := 0 }

/-- A deactivated tracker with an expiry already in the past. -/
def wTrackerOld : Tracker :=
  { trackerId := "TRKOLD997777", tripId := "T9", email := "w@x.com",
    travelerName := none, phone := none, saveDate := 0, isActive := false, accessCount := 0,
    lastAccessed := none, expiresAt := some 10, createdAt := 0 }

/-- The store the witnesses run against. -/
def wDb : DB := { trips := [wTrip], trackers := [wTracker, wTrackerOld] }

/-- Witness for C1 at a concrete store: a mismatching supplied email on a
live tracker is denied with 403. -/
theorem getTracker_denial_order_witness :
    (getTrackerHandler wDb "TRKZZ991111" (some "z@x.com") 50).1
      = { status := 403, error := some "Access denied" } :=
  (getTracker_denial_order wDb "TRKZZ991111" (some "z@x.com") 50).2.2.2.1
    wTracker "z@x.com" (by decide) (by decide) (by decide) rfl (by decide)

/-- Witness for C2 at a concrete store: an authorized read answers 200
and bumps the stored access count from 3 to 4, stamping `lastAccessed`. -/
theorem getTracker_access_audit_witness :
    (getTrackerHandler wDb "TRKZZ991111" none 50).1.status = 200 ∧
    findTrackerRow (getTrackerHandler wDb "TRKZZ991111" none 50).2 "TRKZZ991111"
      = some { wTracker with accessCount := wTracker.accessCount + 1, lastAccessed := some 50 } :=
  (getTracker_access_audit wDb "TRKZZ991111" none 50).1 wTracker
    (by decide) (by decide) (by decide) (by decide)

/-- Witness for C3 (amended) at a concrete store: the failed insert
reports 500 with no email attempt, no tracker row, and the trip start
date already rewritten to today. -/
theorem create_insert_failure_partial_witness :
    (postTracker exDb exIn exGen 10 false (EmailOutcome.thrown "boom") 200).status = 500 ∧
    (postTracker exDb exIn exGen 10 false (EmailOutcome.thrown "boom") 200).emailAttempted
      = false ∧
    (postTracker exDb exIn exGen 10 false (EmailOutcome.thrown "boom") 200).emailLog = none ∧
    (postTracker exDb exIn exGen 10 false (EmailOutcome.thrown "boom") 200).db.trackers
      = exDb.trackers ∧
    findTripRow (postTracker exDb exIn exGen 10 false (EmailOutcome.thrown "boom") 200).db
      exIn.tripId = some { exTrip with startDate := some 200 } :=
  create_insert_failure_partial exDb exIn exGen 10 (EmailOutcome.thrown "boom") 200 exTrip
    "TRKAB121234" (by decide) (by decide)

/-- Witness for C4 at a concrete store: a create without `startDate` on a
trip whose start date was 5 rewrites it to today (300). -/
theorem create_startDate_overwrite_witness :
    findTripRow (postTracker exDb exIn exGen 10 true (EmailOutcome.success "id1") 300).db "T1"
      = some { exTrip with startDate := some 300 } :=
  (create_startDate_overwrite exDb exIn exGen 10 true (EmailOutcome.success "id1") 300 exTrip
    "TRKAB121234" (by decide) (by decide)).1 rfl

/-- Witness for C5: a generator that always returns an already-persisted
token with `maxAttempts = 3` fails after exactly 3 attempts. -/
theorem ensureUnique_bounded_retry_witness :
    (ensureUniqueTrackerId wDb (fun _ => "TRKZZ991111") 3).1 = none ∧
    (ensureUniqueTrackerId wDb (fun _ => "TRKZZ991111") 3).2 = 3 :=
  (ensureUnique_bounded_retry wDb (fun _ => "TRKZZ991111") 3 (by omega)).2.2.1
    (fun _ _ => by decide)

/-- Witness for C6 at a concrete store: update and deactivate with a
wrong email answer 403 and leave the store untouched. -/
theorem updateDelete_mismatch_unchanged_witness :
    (putTrackerHandler wDb "TRKZZ991111" (some "z@x.com")
      { travelerName := JStr.undef, phone := JStr.undef, expiresAt := JDate.undef }).1.status
      = 403 ∧
    (putTrackerHandler wDb "TRKZZ991111" (some "z@x.com")
      { travelerName := JStr.undef, phone := JStr.undef, expiresAt := JDate.undef }).2 = wDb ∧
    (deleteTrackerHandler wDb "TRKZZ991111" (some "z@x.com")).1.status = 403 ∧
    (deleteTrackerHandler wDb "TRKZZ991111" (some "z@x.com")).2 = wDb :=
  updateDelete_mismatch_unchanged wDb "TRKZZ991111" "z@x.com" wTracker
    { travelerName := JStr.undef, phone := JStr.undef, expiresAt := JDate.undef }
    (by decide) (by decide)

/-- A concrete patch: set the name, clear the phone, set an expiry. -/
def wPatch : UpdatePatch :=
  { travelerName := JStr.val "Bob Cruz", phone := JStr.nullv, expiresAt := JDate.val 999 }

/-- Witness for C7 at a concrete store: updating a deactivated, expired
tracker with the owning email still succeeds and writes the patch. -/
theorem update_partial_semantics_witness :
    (putTrackerHandler wDb "TRKOLD997777" (some "w@x.com") wPatch).1.status = 200 ∧
    findTrackerRow (putTrackerHandler wDb "TRKOLD997777" (some "w@x.com") wPatch).2
      "TRKOLD997777" = some (applyPatch wPatch wTrackerOld) :=
  have h := update_partial_semantics wDb "TRKOLD997777" (some "w@x.com") wPatch wTrackerOld
    (by decide) (Or.inr (by decide))
  ⟨h.1, h.2.1⟩

/-- Witness for C8 at a concrete store: probing an unknown token changes
nothing and reports a reason. -/
theorem validate_pure_probe_witness :
    (validateHandler wDb "TRKNOPE" 0).2 = wDb ∧
    (validateHandler wDb "TRKNOPE" 0).1.reason.isSome = true :=
  ⟨(validate_pure_probe wDb "TRKNOPE" 0).1,
   (validate_pure_probe wDb "TRKNOPE" 0).2.2 (by decide)⟩

/-- Witness for C9 at a concrete store: a create whose email dispatch
returns a failure still answers 201 and keeps the inserted row. -/
theorem create_email_best_effort_witness :
    (postTracker exDb exIn exGen 10 true (EmailOutcome.failure "smtp 550") 400).status = 201 ∧
    (postTracker exDb exIn exGen 10 true (EmailOutcome.failure "smtp 550") 400).emailAttempted
      = true ∧
    findTrackerRow (postTracker exDb exIn exGen 10 true (EmailOutcome.failure "smtp 550") 400).db
      "TRKAB121234" = some (mkTrackerRow exIn "TRKAB121234" 400) :=
  have h := create_email_best_effort exDb exIn exGen 10 (EmailOutcome.failure "smtp 550") 400
    exTrip "TRKAB121234" (by decide) (by decide)
  ⟨h.1, h.2.2.2.1, h.2.2.2.2.2⟩

/-- Witness for C10 at a concrete random value and timestamp. -/
theorem generateTrackerId_format_witness :
    (generateTrackerId [10, 0, 35, 9, 2, 33, 7] 1759300000000).length ≤ 13 ∧
    (generateTrackerId [] 1759300000000).length = 7 :=
  ⟨(generateTrackerId_format [10, 0, 35, 9, 2, 33, 7] 1759300000000
      (by decide) (by decide)).2.1,
   (generateTrackerId_format [10, 0, 35, 9, 2, 33, 7] 1759300000000
      (by decide) (by decide)).2.2⟩
